import Mathlib

/-!
Verification of the upload gateway in `src/app.py` (FastAPI service that
authenticates against the Bubble identity provider, derives an S3 object key
and uploads / pre-signs).  Strings are modelled as `List Char`; every
definition is translated from the Python source.
-/

abbrev Str := List Char

/-! ### `os.path.splitext` (posixpath), modelled from CPython

`splitext(p)` looks for the last `'.'` that lies strictly after the last
`'/'` and such that at least one character between the last `'/'` and that
dot is not itself a dot (leading dots of a basename never start an
extension).  If found, it splits there; otherwise the extension is empty. -/

/-- The part of `s` after the last `'/'` (all of `s` when there is none). -/
def basenamePart (s : Str) : Str :=
  (s.reverse.takeWhile (fun c => c != '/')).reverse

/-- The part of `s` up to and including the last `'/'`. -/
def dirPart (s : Str) : Str :=
  s.take (s.length - (basenamePart s).length)

/-- The part of `base` after its last `'.'` (all of `base` when none). -/
def afterLastDot (base : Str) : Str :=
  (base.reverse.takeWhile (fun c => c != '.')).reverse

/-- The characters of the basename strictly before its last `'.'`. -/
def stembasePart (s : Str) : Str :=
  (basenamePart s).take ((basenamePart s).length - (afterLastDot (basenamePart s)).length - 1)

/-- CPython `posixpath.splitext`, on `List Char`: split at the last `'.'`
that lies after the last `'/'`, unless every basename character before that
dot is itself a dot (leading dots never start an extension). -/
def splitext (s : Str) : Str × Str :=
  if (afterLastDot (basenamePart s)).length = (basenamePart s).length then (s, [])
  else if (stembasePart s).any (fun c => c != '.') then
    (dirPart s ++ stembasePart s, '.' :: afterLastDot (basenamePart s))
  else (s, [])

/-! ### Filename sanitization and key derivation (`upload_file`, lines 143-174)

Python: `safe_filename = ''.join(c for c in filename if c.isalnum() or c in '._- ')`.
`Char.isAlphanum` matches Python `str.isalnum` on ASCII input. -/

/-- Allow-list used by the sanitizer: alphanumeric or one of `. _ - space`. -/
def isAllowedChar (c : Char) : Bool :=
  c.isAlphanum || c == '.' || c == '_' || c == '-' || c == ' '

/-- `''.join(c for c in filename if c.isalnum() or c in '._- ')`. -/
def sanitizeFilename (s : Str) : Str :=
  s.filter isAllowedChar

/-- Python `str(x)` applied to the optional workspace value:
`str(None)` is the literal string `"None"` (which is truthy). -/
def pyStrOpt : Option Str → Str
  | none => "None".toList
  | some s => s

/-- Lines 146-161 of `upload_file`: the `safe_filename` value.  `custom = []`
models an absent (or empty, hence falsy) `filename` query parameter. -/
def safe_filename (custom orig : Str) : Str :=
  if custom ≠ [] then
    if (splitext (sanitizeFilename custom)).2 = [] then
      (splitext (sanitizeFilename custom)).1 ++ (splitext orig).2
    else sanitizeFilename custom
  else orig

/-- Line 164: `f"{os.path.splitext(safe_filename)[0]}_{timestamp}{original_extension}"`. -/
def timestamped_filename (custom orig ts : Str) : Str :=
  (splitext (safe_filename custom orig)).1 ++ '_' :: (ts ++ (splitext orig).2)

/-- Lines 167-174: `f"{user_id}/{timestamped_filename}"`, then
`folder = str(user_data.get('workspace'))` and `if folder: prepend`. -/
def upload_key (custom orig ts userId : Str) (workspace : Option Str) : Str :=
  if pyStrOpt workspace ≠ [] then
    pyStrOpt workspace ++ '/' :: (userId ++ '/' :: timestamped_filename custom orig ts)
  else userId ++ '/' :: timestamped_filename custom orig ts

/-! ### Timestamp token: `datetime.now().strftime("%Y%m%d_%H%M%S")` -/

/-- Two-digit zero-padded decimal (strftime `%m`, `%d`, `%H`, `%M`, `%S`). -/
def pad2 (n : Nat) : Str :=
  [Nat.digitChar (n / 10 % 10), Nat.digitChar (n % 10)]

/-- Four-digit decimal (strftime `%Y` for years 1000-9999). -/
def pad4 (n : Nat) : Str :=
  [Nat.digitChar (n / 1000 % 10), Nat.digitChar (n / 100 % 10),
   Nat.digitChar (n / 10 % 10), Nat.digitChar (n % 10)]

/-- A wall-clock time at one-second resolution. -/
structure DateTime where
  year : Nat
  month : Nat
  day : Nat
  hour : Nat
  minute : Nat
  second : Nat
deriving DecidableEq

/-- `strftime("%Y%m%d_%H%M%S")`. -/
def fmtTimestamp (t : DateTime) : Str :=
  pad4 t.year ++ (pad2 t.month ++ (pad2 t.day ++
    ('_' :: (pad2 t.hour ++ (pad2 t.minute ++ pad2 t.second)))))

/-- A calendar-valid time whose year has exactly four digits. -/
def ValidDT (t : DateTime) : Prop :=
  1000 ≤ t.year ∧ t.year ≤ 9999 ∧ 1 ≤ t.month ∧ t.month ≤ 12 ∧
  1 ≤ t.day ∧ t.day ≤ 31 ∧ t.hour < 24 ∧ t.minute < 60 ∧ t.second < 60

instance (t : DateTime) : Decidable (ValidDT t) := by
  unfold ValidDT; infer_instance

/-- Chronological (tuple-lexicographic) order on `DateTime`. -/
def chronoLt (a b : DateTime) : Prop :=
  a.year < b.year ∨ (a.year = b.year ∧
    (a.month < b.month ∨ (a.month = b.month ∧
      (a.day < b.day ∨ (a.day = b.day ∧
        (a.hour < b.hour ∨ (a.hour = b.hour ∧
          (a.minute < b.minute ∨ (a.minute = b.minute ∧
            a.second < b.second)))))))))

instance (a b : DateTime) : Decidable (chronoLt a b) := by
  unfold chronoLt; infer_instance

/-- Strict lexicographic order on character lists (Python string `<`). -/
def lexLt : Str → Str → Bool
  | _, [] => false
  | [], _ :: _ => true
  | a :: as, b :: bs => if a < b then true else if b < a then false else lexLt as bs

/-- The timestamp used in the concrete scenarios: 2024-03-01T10:00:00. -/
def ts0 : Str := fmtTimestamp ⟨2024, 3, 1, 10, 0, 0⟩

/-! ### Token verification (`verify_bubble_token`, lines 51-122) -/

/-- The `user` object of the identity provider's verification response;
each field is `none` when the JSON key is absent. -/
structure BubbleUser where
  id : Option Str
  name : Option Str
  workspace : Option Str
  email : Option Str
  role : Option Str
deriving DecidableEq

/-- The JSON body of the verification response: its top-level `status`
field and the `response.user` object. -/
structure BubbleBody where
  status : Option Str
  user : Option BubbleUser
deriving DecidableEq

/-- The normalized user context returned on successful verification
(the dict built at lines 100-106). -/
structure UserCtx where
  id : Str
  name : Option Str
  workspace : Option Str
  email : Option Str
  role : Option Str
deriving DecidableEq

/-- What the verifier observes: no credential, a transport failure while
calling the identity provider, or an HTTP response with status and body. -/
inductive VerifyInput where
  | noCred : VerifyInput
  | transportErr : VerifyInput
  | resp (status : Nat) (body : BubbleBody) : VerifyInput
deriving DecidableEq

/-- Distinct failure causes of `verify_bubble_token` (each raised as an
`HTTPException` in the source). -/
inductive AuthCause where
  | noToken : AuthCause
  | badStatus : AuthCause
  | extractFailed : AuthCause
  | connectFailed : AuthCause
deriving DecidableEq

/-- A typed authentication error: HTTP status code plus cause. -/
structure AuthErr where
  code : Nat
  cause : AuthCause
deriving DecidableEq

/-- Lines 51-122: checks `response.status_code == 200`, then
`response_data.get('status') == 'success' and
response_data.get('response', {}).get('user', {}).get('_id')` (the `_id`
is truthy iff present and non-empty), and returns the normalized dict;
every failure raises status 401. -/
def verify_bubble_token : VerifyInput → Except AuthErr UserCtx
  | .noCred => .error ⟨401, .noToken⟩
  | .transportErr => .error ⟨401, .connectFailed⟩
  | .resp status body =>
    if status ≠ 200 then .error ⟨401, .badStatus⟩
    else if body.status = some ("success".toList) then
      match body.user with
      | some u =>
        match u.id with
        | some i =>
          if i ≠ [] then .ok ⟨i, u.name, u.workspace, u.email, u.role⟩
          else .error ⟨401, .extractFailed⟩
        | none => .error ⟨401, .extractFailed⟩
      | none => .error ⟨401, .extractFailed⟩
    else .error ⟨401, .extractFailed⟩

/-! ### Upload orchestration (`upload_file`, lines 124-251) -/

/-- Outcome of the confirmation POST to `save-s3-url`: an HTTP response
with some status code, or an exception from `requests.post`. -/
inductive ConfirmOutcome where
  | resp (status : Nat) : ConfirmOutcome
  | transportErr : ConfirmOutcome
deriving DecidableEq

/-- The JSON content returned by `/upload` on success (the fields the
claims are about). -/
structure UploadResp where
  path : Str
  bubble_save_status : Str
deriving DecidableEq

/-- Lines 217-251: after the S3 `put_object` succeeded, the confirmation
POST is issued.  A non-200 confirmation response only sets
`bubble_save_status` to `"failed"` and the handler still returns 200; an
exception raised by `requests.post` falls through to the generic
`except Exception` handler (line 247) and raises HTTP 500. -/
def upload_after_s3 (key : Str) : ConfirmOutcome → Except Nat UploadResp
  | .resp status =>
    .ok ⟨key, if status = 200 then "success".toList else "failed".toList⟩
  | .transportErr => .error 500

/-- The `/upload` request end to end: FastAPI runs `verify_bubble_token`
as a dependency before the handler, so a verification error produces its
HTTP error response and the handler body never executes.  The second
component counts `s3_client.put_object` invocations. -/
def upload_request (inp : VerifyInput) (custom orig ts : Str)
    (confirm : ConfirmOutcome) : Except Nat UploadResp × Nat :=
  match verify_bubble_token inp with
  | .error e => (.error e.code, 0)
  | .ok ctx =>
    let key := upload_key custom orig ts ctx.id ctx.workspace
    (upload_after_s3 key confirm, 1)

/-! ### Pre-signed URL issuance (`get_upload_url`, lines 254-314) -/

/-- The `Params` dict passed to `generate_presigned_url` (line 283). -/
structure PresignCall where
  bucket : Str
  key : Str
deriving DecidableEq

/-- The response content of `/get-upload-url` (the fields the claims are
about), together with the presign call it issued. -/
structure UploadUrlResp where
  presign : PresignCall
  final_url : Str
  path : Str
deriving DecidableEq

/-- `https://{bucket}.s3.{region}.amazonaws.com/` — the fixed part of the
public object URL (line 194 / line 296). -/
def url_head (bucket region : Str) : Str :=
  "https://".toList ++ bucket ++ ".s3.".toList ++ region ++ ".amazonaws.com/".toList

/-- The path component of a public URL: what follows `url_head`. -/
def url_path (bucket region url : Str) : Str :=
  url.drop (url_head bucket region).length

/-- Lines 261-309 of `get_upload_url`: sanitize the `filename` query
parameter, timestamp it (keeping its own extension), derive the key with
the same `str(workspace)` folder logic, pass the key to
`generate_presigned_url` and build `final_url` from the same key. -/
def get_upload_url (filename ts userId : Str) (workspace : Option Str)
    (bucket region : Str) : UploadUrlResp :=
  let safe := sanitizeFilename filename
  let stamped := (splitext safe).1 ++ '_' :: (ts ++ (splitext safe).2)
  let folder := pyStrOpt workspace
  let key := if folder ≠ [] then folder ++ '/' :: (userId ++ '/' :: stamped)
             else userId ++ '/' :: stamped
  ⟨⟨bucket, key⟩, url_head bucket region ++ key, key⟩

/-! ### Boolean observers used to state the claims -/

/-- `true` iff the list contains a `'/'` character. -/
def hasSlash : Str → Bool
  | [] => false
  | c :: r => c == '/' || hasSlash r

/-- `true` iff the list contains two adjacent `'.'` characters. -/
def hasDotDot : Str → Bool
  | '.' :: '.' :: _ => true
  | _ :: r => hasDotDot r
  | [] => false

/-- `true` iff `suf` is a suffix of `s`. -/
def endsWith (s suf : Str) : Bool :=
  decide (suf <:+ s)

/-! ### Helper lemmas: characters of sanitized names and of `splitext` parts -/

theorem hasSlash_eq_false_iff (s : Str) : hasSlash s = false ↔ ∀ c ∈ s, c ≠ '/' := by
  induction s with
  | nil => simp [hasSlash]
  | cons a r ih =>
    simp [hasSlash, Bool.or_eq_false_iff, ih, beq_eq_false_iff_ne]

theorem takeWhile_all (p : Char → Bool) :
    ∀ l : Str, (∀ c ∈ l, p c = true) → l.takeWhile p = l := by
  intro l h
  induction l with
  | nil => rfl
  | cons a r ih =>
    rw [List.takeWhile_cons, h a (by simp)]
    simp only [ite_true]
    rw [ih fun c hc => h c (by simp [hc])]

theorem takeWhile_append_all (p : Char → Bool) :
    ∀ xs ys : Str, (∀ c ∈ xs, p c = true) →
      (xs ++ ys).takeWhile p = xs ++ ys.takeWhile p := by
  intro xs ys h
  induction xs with
  | nil => rfl
  | cons a r ih =>
    rw [List.cons_append, List.takeWhile_cons, h a (by simp)]
    simp only [ite_true]
    rw [ih fun c hc => h c (by simp [hc])]
    rfl

theorem mem_sanitize_allowed (c : Char) (s : Str) (h : c ∈ sanitizeFilename s) :
    isAllowedChar c = true :=
  (List.mem_filter.mp h).2

theorem mem_sanitize_ne_slash (c : Char) (s : Str) (h : c ∈ sanitizeFilename s) :
    c ≠ '/' := by
  intro he
  subst he
  exact absurd (mem_sanitize_allowed _ _ h) (by decide)

theorem mem_basenamePart (c : Char) (s : Str) (h : c ∈ basenamePart s) :
    c ∈ s ∧ c ≠ '/' := by
  unfold basenamePart at h
  rw [List.mem_reverse] at h
  refine ⟨?_, ?_⟩
  · exact List.mem_reverse.mp ((List.takeWhile_sublist _).subset h)
  · have hp := List.mem_takeWhile_imp h
    simpa using hp

theorem mem_afterLastDot (c : Char) (b : Str) (h : c ∈ afterLastDot b) :
    c ∈ b ∧ c ≠ '.' := by
  unfold afterLastDot at h
  rw [List.mem_reverse] at h
  refine ⟨?_, ?_⟩
  · exact List.mem_reverse.mp ((List.takeWhile_sublist _).subset h)
  · have hp := List.mem_takeWhile_imp h
    simpa using hp

theorem mem_stembasePart (c : Char) (s : Str) (h : c ∈ stembasePart s) : c ∈ s := by
  unfold stembasePart at h
  exact (mem_basenamePart c s (List.take_subset _ _ h)).1

theorem mem_splitext_stem (c : Char) (s : Str) (h : c ∈ (splitext s).1) : c ∈ s := by
  unfold splitext at h
  split at h
  · exact h
  · split at h
    · rcases List.mem_append.mp h with h1 | h1
      · exact List.take_subset _ _ h1
      · exact mem_stembasePart c s h1
    · exact h

theorem ext_struct (s : Str) :
    (splitext s).2 = [] ∨
      ∃ a, (splitext s).2 = '.' :: a ∧ ∀ c ∈ a, c ≠ '.' ∧ c ≠ '/' := by
  unfold splitext
  split
  · left; rfl
  · split
    · right
      refine ⟨afterLastDot (basenamePart s), rfl, ?_⟩
      intro c hc
      have h1 := mem_afterLastDot c _ hc
      have h2 := mem_basenamePart c s h1.1
      exact ⟨h1.2, h2.2⟩
    · left; rfl

theorem ext_no_slash (c : Char) (s : Str) (h : c ∈ (splitext s).2) : c ≠ '/' := by
  rcases ext_struct s with he | ⟨a, he, ha⟩
  · rw [he] at h
    exact absurd h (List.not_mem_nil c)
  · rw [he] at h
    rcases List.mem_cons.mp h with h1 | h1
    · subst h1; decide
    · exact (ha c h1).2

theorem splitext_nil : splitext [] = ([], []) := rfl

theorem basenamePart_dotfile (a : Str) (h : ∀ c ∈ a, c ≠ '/') :
    basenamePart ('.' :: a) = '.' :: a := by
  unfold basenamePart
  rw [takeWhile_all _ _ ?_, List.reverse_reverse]
  intro c hc
  rw [List.mem_reverse] at hc
  rcases List.mem_cons.mp hc with h1 | h1
  · subst h1; decide
  · simpa using h c h1

theorem afterLastDot_dotfile (a : Str) (h : ∀ c ∈ a, c ≠ '.') :
    afterLastDot ('.' :: a) = a := by
  unfold afterLastDot
  rw [List.reverse_cons]
  rw [takeWhile_append_all _ _ _ ?_]
  · have h1 : List.takeWhile (fun c => c != '.') ['.'] = [] := by decide
    rw [h1, List.append_nil, List.reverse_reverse]
  · intro c hc
    rw [List.mem_reverse] at hc
    simpa using h c hc

theorem splitext_dotfile (a : Str) (h : ∀ c ∈ a, c ≠ '.' ∧ c ≠ '/') :
    splitext ('.' :: a) = ('.' :: a, []) := by
  have hb : basenamePart ('.' :: a) = '.' :: a :=
    basenamePart_dotfile a fun c hc => (h c hc).2
  have ha0 : afterLastDot ('.' :: a) = a :=
    afterLastDot_dotfile a fun c hc => (h c hc).1
  have hst : stembasePart ('.' :: a) = [] := by
    unfold stembasePart
    rw [hb, ha0]
    simp
  unfold splitext
  rw [hb, ha0, hst]
  simp

theorem splitext_ext_stem (s : Str) :
    splitext ((splitext s).2) = ((splitext s).2, []) := by
  rcases ext_struct s with he | ⟨a, he, ha⟩
  · rw [he]; exact splitext_nil
  · rw [he]; exact splitext_dotfile a ha

/-! ### Helper lemmas on `verify_bubble_token` -/

theorem verify_err_code (inp : VerifyInput) (e : AuthErr)
    (h : verify_bubble_token inp = Except.error e) : e.code = 401 := by
  cases inp with
  | noCred =>
    simp only [verify_bubble_token] at h
    cases h; rfl
  | transportErr =>
    simp only [verify_bubble_token] at h
    cases h; rfl
  | resp st body =>
    simp only [verify_bubble_token] at h
    repeat' split at h
    all_goals first
      | (cases h; rfl)
      | cases h

theorem verify_ok_iff (st : Nat) (body : BubbleBody) (ctx : UserCtx) :
    verify_bubble_token (.resp st body) = .ok ctx ↔
      (st = 200 ∧ body.status = some ("success".toList) ∧
        ∃ u i, body.user = some u ∧ u.id = some i ∧ i ≠ [] ∧
          ctx = ⟨i, u.name, u.workspace, u.email, u.role⟩) := by
  simp only [verify_bubble_token]
  split
  · rename_i hst
    constructor
    · intro h; simp at h
    · rintro ⟨h200, -⟩; exact absurd h200 hst
  · rename_i hst
    have h200 : st = 200 := not_ne_iff.mp hst
    split
    · rename_i hsu
      split
      · rename_i u heq
        split
        · rename_i i hi
          split
          · rename_i hne
            constructor
            · intro h
              injection h with h'
              exact ⟨h200, hsu, u, i, heq, hi, hne, h'.symm⟩
            · rintro ⟨-, -, u', i', huu, hii, -, hctx⟩
              rw [heq] at huu
              cases huu
              rw [hi] at hii
              cases hii
              rw [hctx]
          · rename_i hne
            constructor
            · intro h; simp at h
            · rintro ⟨-, -, u', i', huu, hii, hne', -⟩
              rw [heq] at huu
              cases huu
              rw [hi] at hii
              cases hii
              exact absurd hne' hne
        · rename_i hi
          constructor
          · intro h; simp at h
          · rintro ⟨-, -, u', i', huu, hii, -, -⟩
            rw [heq] at huu
            cases huu
            rw [hi] at hii
            cases hii
      · rename_i heq
        constructor
        · intro h; simp at h
        · rintro ⟨-, -, u', i', huu, -⟩
          rw [heq] at huu
          cases huu
    · rename_i hsu
      constructor
      · intro h; simp at h
      · rintro ⟨-, hs, -⟩
        exact absurd hs hsu

/-! ### Helper lemmas on the timestamp token -/

theorem lexLt_nil_r (l : Str) : lexLt l [] = false := by
  cases l <;> rfl

theorem lexLt_cons_cons (a b : Char) (as bs : Str) :
    lexLt (a :: as) (b :: bs) =
      if a < b then true else if b < a then false else lexLt as bs := rfl

theorem lexLt_append_iff : ∀ xs ys u v : Str, xs.length = ys.length →
    (lexLt (xs ++ u) (ys ++ v) = true ↔
      (lexLt xs ys = true ∨ (xs = ys ∧ lexLt u v = true))) := by
  intro xs
  induction xs with
  | nil =>
    intro ys u v h
    cases ys with
    | nil => simp [lexLt]
    | cons b bs => simp at h
  | cons a as ih =>
    intro ys u v h
    cases ys with
    | nil => simp at h
    | cons b bs =>
      have hlen : as.length = bs.length := by simpa using h
      simp only [List.cons_append, lexLt_cons_cons]
      rcases lt_trichotomy a b with hab | hab | hab
      · simp [hab]
      · subst hab
        simp only [lt_irrefl, ite_false, List.cons.injEq, true_and]
        rw [ih bs u v hlen]
      · have h1 : ¬ a < b := not_lt_of_gt hab
        have h2 : a ≠ b := ne_of_gt hab
        simp [h1, hab, h2]

set_option maxRecDepth 100000 in
set_option maxHeartbeats 1000000 in
theorem pad2_lt_iff : ∀ a, a < 100 → ∀ b, b < 100 →
    (lexLt (pad2 a) (pad2 b) = true ↔ a < b) := by decide

set_option maxRecDepth 100000 in
set_option maxHeartbeats 1000000 in
theorem pad2_eq_iff : ∀ a, a < 100 → ∀ b, b < 100 → (pad2 a = pad2 b ↔ a = b) := by decide

@[simp] theorem pad2_length (n : Nat) : (pad2 n).length = 2 := rfl

@[simp] theorem pad4_length (n : Nat) : (pad4 n).length = 4 := rfl

theorem pad4_decomp (n : Nat) : pad4 n = pad2 (n / 100) ++ pad2 (n % 100) := by
  have e1 : n / 100 / 10 % 10 = n / 1000 % 10 := by omega
  have e2 : n % 100 / 10 % 10 = n / 10 % 10 := by omega
  have e3 : n % 100 % 10 = n % 10 := by omega
  simp only [pad4, pad2, List.cons_append, List.nil_append, e1, e2, e3]

theorem pad4_lt_iff (a b : Nat) (ha : a < 10000) (hb : b < 10000) :
    (lexLt (pad4 a) (pad4 b) = true ↔ a < b) := by
  rw [pad4_decomp, pad4_decomp]
  rw [lexLt_append_iff _ _ _ _ (by simp)]
  rw [pad2_lt_iff _ (by omega) _ (by omega)]
  rw [pad2_eq_iff _ (by omega) _ (by omega)]
  rw [pad2_lt_iff _ (by omega) _ (by omega)]
  omega

theorem pad4_eq_iff (a b : Nat) (ha : a < 10000) (hb : b < 10000) :
    (pad4 a = pad4 b ↔ a = b) := by
  rw [pad4_decomp, pad4_decomp]
  constructor
  · intro h
    have hij := List.append_inj h rfl
    have h1 := (pad2_eq_iff _ (by omega) _ (by omega)).mp hij.1
    have h2 := (pad2_eq_iff _ (by omega) _ (by omega)).mp hij.2
    omega
  · intro h
    rw [h]

theorem fmtTimestamp_length (t : DateTime) : (fmtTimestamp t).length = 15 := by
  simp [fmtTimestamp, pad4, pad2]

theorem fmtTimestamp_lt_iff (t1 t2 : DateTime) (h1 : ValidDT t1) (h2 : ValidDT t2) :
    (lexLt (fmtTimestamp t1) (fmtTimestamp t2) = true ↔ chronoLt t1 t2) := by
  obtain ⟨hy1, hy1b, hmo1, hmo1b, hd1, hd1b, hh1, hmi1, hs1⟩ := h1
  obtain ⟨hy2, hy2b, hmo2, hmo2b, hd2, hd2b, hh2, hmi2, hs2⟩ := h2
  unfold fmtTimestamp chronoLt
  rw [lexLt_append_iff _ _ _ _ (by simp)]
  rw [pad4_lt_iff _ _ (by omega) (by omega)]
  rw [pad4_eq_iff _ _ (by omega) (by omega)]
  rw [lexLt_append_iff _ _ _ _ (by simp)]
  rw [pad2_lt_iff _ (by omega) _ (by omega)]
  rw [pad2_eq_iff _ (by omega) _ (by omega)]
  rw [lexLt_append_iff _ _ _ _ (by simp)]
  rw [pad2_lt_iff _ (by omega) _ (by omega)]
  rw [pad2_eq_iff _ (by omega) _ (by omega)]
  rw [show ('_' :: (pad2 t1.hour ++ (pad2 t1.minute ++ pad2 t1.second))) =
      ['_'] ++ (pad2 t1.hour ++ (pad2 t1.minute ++ pad2 t1.second)) from rfl]
  rw [show ('_' :: (pad2 t2.hour ++ (pad2 t2.minute ++ pad2 t2.second))) =
      ['_'] ++ (pad2 t2.hour ++ (pad2 t2.minute ++ pad2 t2.second)) from rfl]
  rw [lexLt_append_iff _ _ _ _ (by simp)]
  rw [show lexLt ['_'] ['_'] = false from rfl]
  rw [lexLt_append_iff _ _ _ _ (by simp)]
  rw [pad2_lt_iff _ (by omega) _ (by omega)]
  rw [pad2_eq_iff _ (by omega) _ (by omega)]
  rw [lexLt_append_iff _ _ _ _ (by simp)]
  rw [pad2_lt_iff _ (by omega) _ (by omega)]
  rw [pad2_eq_iff _ (by omega) _ (by omega)]
  rw [pad2_lt_iff _ (by omega) _ (by omega)]
  simp


theorem fmtTimestamp_inj_iff (t1 t2 : DateTime) (h1 : ValidDT t1) (h2 : ValidDT t2) :
    (fmtTimestamp t1 = fmtTimestamp t2 ↔ t1 = t2) := by
  obtain ⟨hy1, hy1b, hmo1, hmo1b, hd1, hd1b, hh1, hmi1, hs1⟩ := h1
  obtain ⟨hy2, hy2b, hmo2, hmo2b, hd2, hd2b, hh2, hmi2, hs2⟩ := h2
  constructor
  · intro h
    unfold fmtTimestamp at h
    have p1 := List.append_inj h (by simp)
    have hy := (pad4_eq_iff _ _ (by omega) (by omega)).mp p1.1
    have p2 := List.append_inj p1.2 (by simp)
    have hmo := (pad2_eq_iff _ (by omega) _ (by omega)).mp p2.1
    have p3 := List.append_inj p2.2 (by simp)
    have hd := (pad2_eq_iff _ (by omega) _ (by omega)).mp p3.1
    have p4 := ((List.cons.injEq _ _ _ _).mp p3.2).2
    have p5 := List.append_inj p4 (by simp)
    have hh := (pad2_eq_iff _ (by omega) _ (by omega)).mp p5.1
    have p6 := List.append_inj p5.2 (by simp)
    have hmi := (pad2_eq_iff _ (by omega) _ (by omega)).mp p6.1
    have hs := (pad2_eq_iff _ (by omega) _ (by omega)).mp p6.2
    cases t1
    cases t2
    simp_all
  · intro h
    rw [h]

/-! ### Claim theorems -/

/-- Claim C1 counterexample: the claim fails as stated.  With no custom
filename, the original multipart filename `../../etc/passwd` flows verbatim
into the derived key (lines 160-161), which then contains `..` sequences and
`/` separators beyond the segment boundaries; and even a sanitized custom
filename keeps its dots, so `..` survives sanitization. -/
theorem claim_C1_counterexample :
    upload_key [] ("../../etc/passwd".toList) ts0 ("u123".toList)
        (some ("teamA".toList)) =
      "teamA/u123/../../etc/passwd_20240301_100000".toList ∧
    hasDotDot (upload_key [] ("../../etc/passwd".toList) ts0 ("u123".toList)
      (some ("teamA".toList))) = true ∧
    hasSlash (timestamped_filename [] ("../../etc/passwd".toList) ts0) = true ∧
    hasDotDot (sanitizeFilename ("../../etc/passwd".toList)) = true := by
  refine ⟨by decide, by decide, by decide, by decide⟩

/-- Claim C1 (amended): when a custom filename is supplied, the sanitizer's
allow-list excludes `/`, so the derived filename segment contains no path
separator at all (while `..` dot runs may survive sanitization, and an
absent custom filename lets the original filename enter the key verbatim). -/
theorem claim_C1_amended (custom orig ts : Str) (hc : custom ≠ [])
    (hts : hasSlash ts = false) :
    hasSlash (timestamped_filename custom orig ts) = false := by
  rw [hasSlash_eq_false_iff]
  intro c hcin
  unfold timestamped_filename at hcin
  rcases List.mem_append.mp hcin with h1 | h1
  · have hsafe := mem_splitext_stem c _ h1
    unfold safe_filename at hsafe
    rw [if_pos hc] at hsafe
    by_cases hp : (splitext (sanitizeFilename custom)).2 = []
    · rw [if_pos hp] at hsafe
      rcases List.mem_append.mp hsafe with h2 | h2
      · exact mem_sanitize_ne_slash c custom (mem_splitext_stem c _ h2)
      · exact ext_no_slash c orig h2
    · rw [if_neg hp] at hsafe
      exact mem_sanitize_ne_slash c custom hsafe
  · rcases List.mem_cons.mp h1 with h2 | h2
    · subst h2; decide
    · rcases List.mem_append.mp h2 with h3 | h3
      · exact (hasSlash_eq_false_iff ts).mp hts c h3
      · exact ext_no_slash c orig h3

/-- Claim C1 amended witness: concrete instance of `claim_C1_amended`. -/
theorem claim_C1_amended_witness :
    ("photo".toList ≠ []) ∧ hasSlash ts0 = false ∧
      hasSlash (timestamped_filename ("photo".toList) ("pic.jpg".toList) ts0) = false :=
  ⟨by decide, by decide, claim_C1_amended _ _ _ (by decide) (by decide)⟩

/-- Claim C2: `verify_bubble_token` succeeds, with the context id equal
(case-preserved) to the provider's `_id`, iff the HTTP status is 200, the
body's `status` is `"success"`, and a non-empty `_id` is present in the
nested user object; every failure carries status 401. -/
theorem claim_C2_verify :
    (∀ st body ctx, verify_bubble_token (.resp st body) = .ok ctx ↔
      (st = 200 ∧ body.status = some ("success".toList) ∧
        ∃ u i, body.user = some u ∧ u.id = some i ∧ i ≠ [] ∧
          ctx = ⟨i, u.name, u.workspace, u.email, u.role⟩)) ∧
    (∀ inp e, verify_bubble_token inp = .error e → e.code = 401) :=
  ⟨verify_ok_iff, verify_err_code⟩

/-- Claim C2 witness: concrete instance of both parts of `claim_C2_verify`. -/
theorem claim_C2_witness :
    verify_bubble_token (.resp 200 ⟨some ("success".toList),
        some ⟨some ("u123".toList), none, some ("teamA".toList), none, none⟩⟩) =
      .ok ⟨"u123".toList, none, some ("teamA".toList), none, none⟩ ∧
    (⟨401, AuthCause.badStatus⟩ : AuthErr).code = 401 :=
  ⟨(claim_C2_verify.1 200 _ _).mpr ⟨rfl, rfl, _, _, rfl, rfl, by decide, rfl⟩,
   claim_C2_verify.2 (.resp 500 ⟨none, none⟩) ⟨401, .badStatus⟩ rfl⟩

/-- Claim C3 (code bug): when the workspace value is absent,
`str(user_data.get('workspace'))` is the truthy literal `"None"`, so both
handlers prepend a literal `None/` folder segment instead of omitting it. -/
theorem claim_C3_missing_workspace_eval :
    upload_key [] ("report.pdf".toList) ts0 ("u123".toList) none =
      "None/u123/report_20240301_100000.pdf".toList ∧
    (get_upload_url ("report.pdf".toList) ts0 ("u123".toList) none
        ("mybucket".toList) ("ap-southeast-2".toList)).presign.key =
      "None/u123/report_20240301_100000.pdf".toList ∧
    pyStrOpt none = "None".toList := by
  refine ⟨by decide, by decide, by decide⟩

/-- Claim C4 counterexample: the claim fails as stated.  When the sanitized
custom filename has its own extension (`photo.png`), the key still ends in
the ORIGINAL file's extension (`.jpg`), not the custom one: line 164 always
appends `original_extension`. -/
theorem claim_C4_counterexample :
    timestamped_filename ("photo.png".toList) ("pic.jpg".toList) ts0 =
      "photo_20240301_100000.jpg".toList ∧
    endsWith (timestamped_filename ("photo.png".toList) ("pic.jpg".toList) ts0)
      (".png".toList) = false ∧
    endsWith (timestamped_filename ("photo.png".toList) ("pic.jpg".toList) ts0)
      (".jpg".toList) = true := by
  refine ⟨by decide, by decide, by decide⟩

/-- Claim C4 (amended): every derived storage key ends in the ORIGINAL
file's extension, with the timestamp inserted between the stem and that
extension (`stem_timestamp.origExt`); a custom extension never survives
into the key. -/
theorem claim_C4_amended (custom orig ts userId : Str) (w : Option Str) :
    (∃ stem, upload_key custom orig ts userId w =
        stem ++ '_' :: (ts ++ (splitext orig).2)) ∧
    endsWith (upload_key custom orig ts userId w) ((splitext orig).2) = true := by
  have hkey : ∃ stem, upload_key custom orig ts userId w =
      stem ++ '_' :: (ts ++ (splitext orig).2) := by
    unfold upload_key timestamped_filename
    by_cases hf : pyStrOpt w ≠ []
    · rw [if_pos hf]
      exact ⟨pyStrOpt w ++ '/' ::
        (userId ++ '/' :: (splitext (safe_filename custom orig)).1), by simp⟩
    · rw [if_neg hf]
      exact ⟨userId ++ '/' :: (splitext (safe_filename custom orig)).1, by simp⟩
  obtain ⟨stem, hst⟩ := hkey
  refine ⟨⟨stem, hst⟩, ?_⟩
  unfold endsWith
  rw [decide_eq_true_eq, hst]
  exact ⟨stem ++ '_' :: ts, by simp⟩

/-- Claim C5 counterexample: the claim fails as stated.  An exception from
the confirmation `requests.post` is caught only by the generic
`except Exception` handler (line 247), which raises HTTP 500: the upload
fails even though the object is already stored. -/
theorem claim_C5_counterexample :
    upload_after_s3 ("k".toList) ConfirmOutcome.transportErr = Except.error 500 := rfl

/-- Claim C5 (amended): a confirmation RESPONSE with any non-200 status
never fails the upload: the handler still returns 200 and merely reports
`bubble_save_status = "failed"`; only a transport-level exception escapes
to the generic 500 handler. -/
theorem claim_C5_amended (key : Str) (st : Nat) (h : st ≠ 200) :
    upload_after_s3 key (.resp st) = .ok ⟨key, "failed".toList⟩ := by
  simp only [upload_after_s3]
  rw [if_neg h]

/-- Claim C5 amended witness: HTTP 503 from the confirmation endpoint. -/
theorem claim_C5_witness :
    upload_after_s3 ("w".toList) (ConfirmOutcome.resp 503) =
      Except.ok ⟨"w".toList, "failed".toList⟩ :=
  claim_C5_amended _ 503 (by decide)

/-- Claim C6: the documented scenario.  Verifying the provider response for
`u123`/`teamA` yields that user context, and uploading `report.pdf` with no
custom filename at 2024-03-01T10:00:00 derives exactly
`teamA/u123/report_20240301_100000.pdf`. -/
theorem claim_C6_scenario :
    verify_bubble_token (.resp 200 ⟨some ("success".toList),
        some ⟨some ("u123".toList), none, some ("teamA".toList), none, none⟩⟩) =
      .ok ⟨"u123".toList, none, some ("teamA".toList), none, none⟩ ∧
    upload_key [] ("report.pdf".toList) (fmtTimestamp ⟨2024, 3, 1, 10, 0, 0⟩)
        ("u123".toList) (some ("teamA".toList)) =
      "teamA/u123/report_20240301_100000.pdf".toList := by
  refine ⟨rfl, by decide⟩

/-- Claim C7: when token verification fails, the `/upload` pipeline
performs zero storage-client invocations and responds with the 401
authentication error, before any key derivation or upload. -/
theorem claim_C7_short_circuit (inp : VerifyInput) (custom orig ts : Str)
    (confirm : ConfirmOutcome) (e : AuthErr)
    (h : verify_bubble_token inp = .error e) :
    upload_request inp custom orig ts confirm = (.error 401, 0) := by
  simp only [upload_request, h]
  rw [verify_err_code inp e h]

/-- Claim C7 witness: provider answers HTTP 500, no storage call happens. -/
theorem claim_C7_witness :
    upload_request (.resp 500 ⟨none, none⟩) [] ("a.txt".toList) ts0
      (ConfirmOutcome.resp 200) = (.error 401, 0) :=
  claim_C7_short_circuit _ _ _ _ _ ⟨401, .badStatus⟩ rfl

/-- Claim C8: the `final_url` returned by `/get-upload-url` embeds exactly
the key passed to `generate_presigned_url`: it is the fixed URL head
followed by that key, so its path component equals the presigned key. -/
theorem claim_C8_roundtrip (filename ts userId : Str) (w : Option Str)
    (bucket region : Str) :
    (get_upload_url filename ts userId w bucket region).final_url =
      url_head bucket region ++
        (get_upload_url filename ts userId w bucket region).presign.key ∧
    url_path bucket region
        (get_upload_url filename ts userId w bucket region).final_url =
      (get_upload_url filename ts userId w bucket region).presign.key := by
  refine ⟨rfl, ?_⟩
  exact List.drop_left _ _

/-- Claim C9: the timestamp token `strftime("%Y%m%d_%H%M%S")` is fixed
width (15 characters), and for valid times with four-digit years,
lexicographic order of tokens coincides with chronological order, with
token equality exactly when the two times agree to the second. -/
theorem claim_C9_timestamp_order (t1 t2 : DateTime)
    (h1 : ValidDT t1) (h2 : ValidDT t2) :
    (fmtTimestamp t1).length = 15 ∧
    (lexLt (fmtTimestamp t1) (fmtTimestamp t2) = true ↔ chronoLt t1 t2) ∧
    (fmtTimestamp t1 = fmtTimestamp t2 ↔ t1 = t2) :=
  ⟨fmtTimestamp_length t1, fmtTimestamp_lt_iff t1 t2 h1 h2,
   fmtTimestamp_inj_iff t1 t2 h1 h2⟩

/-- Claim C9 witness: concrete instance one second apart. -/
theorem claim_C9_witness :
    ((fmtTimestamp ⟨2024, 3, 1, 10, 0, 0⟩).length = 15 ∧
      (lexLt (fmtTimestamp ⟨2024, 3, 1, 10, 0, 0⟩)
          (fmtTimestamp ⟨2024, 3, 1, 10, 0, 1⟩) = true ↔
        chronoLt ⟨2024, 3, 1, 10, 0, 0⟩ ⟨2024, 3, 1, 10, 0, 1⟩) ∧
      (fmtTimestamp ⟨2024, 3, 1, 10, 0, 0⟩ = fmtTimestamp ⟨2024, 3, 1, 10, 0, 1⟩ ↔
        (⟨2024, 3, 1, 10, 0, 0⟩ : DateTime) = ⟨2024, 3, 1, 10, 0, 1⟩)) :=
  claim_C9_timestamp_order _ _ (by decide) (by decide)

/-- Claim C10 counterexample: the claim fails as stated.  A custom filename
of only disallowed characters sanitizes to the empty string, but then the
original extension is appended (line 158) and `splitext` treats the
resulting `.pdf` as a dotfile stem, so the final segment is
`.pdf_timestamp.pdf`, not `_timestamp.pdf`. -/
theorem claim_C10_counterexample :
    sanitizeFilename ("###".toList) = [] ∧
    timestamped_filename ("###".toList) ("doc.pdf".toList) ts0 =
      ".pdf_20240301_100000.pdf".toList ∧
    (timestamped_filename ("###".toList) ("doc.pdf".toList) ts0 ==
      '_' :: (ts0 ++ (splitext ("doc.pdf".toList)).2)) = false := by
  refine ⟨by decide, by decide, by decide⟩

/-- Claim C10 (amended): when the custom filename sanitizes to the empty
string, the derived final segment is `origExt_timestamp origExt`: the
original extension appears first as the (dotfile) stem and again at the
end, i.e. `ext ++ "_" ++ ts ++ ext` (which degenerates to `_timestamp`
only when the original file has no extension). -/
theorem claim_C10_amended (custom orig ts : Str) (hc : custom ≠ [])
    (hs : sanitizeFilename custom = []) :
    timestamped_filename custom orig ts =
      (splitext orig).2 ++ '_' :: (ts ++ (splitext orig).2) := by
  have hsafe : safe_filename custom orig = (splitext orig).2 := by
    unfold safe_filename
    rw [if_pos hc, hs, splitext_nil]
    simp
  unfold timestamped_filename
  rw [hsafe, splitext_ext_stem orig]

/-- Claim C10 amended witness: concrete instance of `claim_C10_amended`. -/
theorem claim_C10_witness :
    ("###".toList ≠ []) ∧ sanitizeFilename ("###".toList) = [] ∧
    timestamped_filename ("###".toList) ("q.dat".toList) ts0 =
      (splitext ("q.dat".toList)).2 ++ '_' :: (ts0 ++ (splitext ("q.dat".toList)).2) :=
  ⟨by decide, by decide, claim_C10_amended _ _ _ (by decide) (by decide)⟩
